import Mathlib

/-!
Verification of the astarte-device-sdk-zephyr core against its specification.

The development shallowly embeds the C sources:
  - `src/lib/astarte_device_sdk/uuid.c`               (namespace `Uuid`)
  - `src/lib/astarte_device_sdk/data.c`               (namespace `Data`)
  - `src/e2e/src/utilities.c`                         (namespace `Utilities`)
  - `src/lib/astarte_device_sdk/device_connection.c`  (namespace `DeviceConnection`)
  - `src/lib/astarte_device_sdk/device.c`             (namespace `Device`)

Modelling conventions:
  - machine bytes are `Nat` reduced `% 256` wherever the C code reads raw memory;
  - C strings are `List Char` (or `List Nat` of ASCII bytes where the code does
    arithmetic on characters, as in uuid.c);
  - fallible C functions returning `astarte_result_t` plus an out-parameter are
    `Except astarte_result α`;
  - heap allocation is assumed to succeed (`calloc` failure branches are the only
    paths dropped from the embedding);
  - IEEE-754 doubles never influence a verified property; their payloads are
    carried opaquely as `Int` bit patterns and `==` on them is modelled as
    equality of those patterns;
  - functions of this repository that are compiled with the sources but are not
    present under `src/` (the BSON deserializer walk, the introspection string
    builder, `device_caching`, `astarte_mqtt`, mbedTLS SHA-1) are modelled from
    the specification; each such definition carries a doc comment starting with
    `Modelled from the spec:`.
-/

/-- Result type of `include/astarte_device_sdk/result.h` (the subset of
constructors reached by the embedded functions). -/
inductive astarte_result where
  | ASTARTE_RESULT_OK
  | ASTARTE_RESULT_INTERNAL_ERROR
  | ASTARTE_RESULT_INVALID_PARAM
  | ASTARTE_RESULT_OUT_OF_MEMORY
  | ASTARTE_RESULT_NOT_FOUND
  | ASTARTE_RESULT_MQTT_CLIENT_ALREADY_CONNECTING
  | ASTARTE_RESULT_MQTT_CLIENT_ALREADY_CONNECTED
  | ASTARTE_RESULT_DEVICE_NOT_READY
  | ASTARTE_RESULT_BSON_DESERIALIZER_ERROR
  | ASTARTE_RESULT_BSON_DESERIALIZER_TYPES_ERROR
  | ASTARTE_RESULT_DEVICE_CACHING_OUTDATED_INTROSPECTION
  | ASTARTE_RESULT_MQTT_ERROR
  deriving DecidableEq, Repr

export astarte_result (ASTARTE_RESULT_OK ASTARTE_RESULT_INTERNAL_ERROR
  ASTARTE_RESULT_INVALID_PARAM ASTARTE_RESULT_OUT_OF_MEMORY ASTARTE_RESULT_NOT_FOUND
  ASTARTE_RESULT_MQTT_CLIENT_ALREADY_CONNECTING ASTARTE_RESULT_MQTT_CLIENT_ALREADY_CONNECTED
  ASTARTE_RESULT_DEVICE_NOT_READY ASTARTE_RESULT_BSON_DESERIALIZER_ERROR
  ASTARTE_RESULT_BSON_DESERIALIZER_TYPES_ERROR
  ASTARTE_RESULT_DEVICE_CACHING_OUTDATED_INTROSPECTION ASTARTE_RESULT_MQTT_ERROR)

namespace Uuid

/-- A `uuid_t` is 16 bytes; we carry it as a `List Nat` whose reads are reduced
mod 256 (`uuid_byte`), mirroring raw-memory access in `uuid.c`. -/
def UUID_SIZE : Nat := 16

/-- Length of the canonical string form, without the NUL terminator. -/
def UUID_STR_LEN : Nat := 36

/-- Raw byte read at offset `i`: C memory holds bytes, so values are `% 256`. -/
def uuid_byte (u : List Nat) (i : Nat) : Nat := (u.getD i 0) % 256

/-- Helper struct of `uuid.c` (`struct uuid`) giving named access to the fields. -/
structure uuid_struct where
  time_low : Nat
  time_mid : Nat
  time_hi_and_version : Nat
  clock_seq_hi_res : Nat
  clock_seq_low : Nat
  node : List Nat
  deriving Repr, DecidableEq

/-- Embeds `uuid_to_struct`: fields are read big-endian (`memcpy` + `ntohl`/`ntohs`). -/
def uuid_to_struct (u : List Nat) : uuid_struct :=
  { time_low := uuid_byte u 0 * 2 ^ 24 + uuid_byte u 1 * 2 ^ 16
      + uuid_byte u 2 * 2 ^ 8 + uuid_byte u 3
    time_mid := uuid_byte u 4 * 2 ^ 8 + uuid_byte u 5
    time_hi_and_version := uuid_byte u 6 * 2 ^ 8 + uuid_byte u 7
    clock_seq_hi_res := uuid_byte u 8
    clock_seq_low := uuid_byte u 9
    node := [uuid_byte u 10, uuid_byte u 11, uuid_byte u 12,
             uuid_byte u 13, uuid_byte u 14, uuid_byte u 15] }

/-- Embeds `uuid_from_struct`: fields are written back big-endian
(`htonl`/`htons` + `memcpy`); stores into byte slots truncate mod 256. -/
def uuid_from_struct (s : uuid_struct) : List Nat :=
  [ s.time_low / 2 ^ 24 % 256, s.time_low / 2 ^ 16 % 256,
    s.time_low / 2 ^ 8 % 256, s.time_low % 256,
    s.time_mid / 2 ^ 8 % 256, s.time_mid % 256,
    s.time_hi_and_version / 2 ^ 8 % 256, s.time_hi_and_version % 256,
    s.clock_seq_hi_res % 256, s.clock_seq_low % 256,
    s.node.getD 0 0 % 256, s.node.getD 1 0 % 256, s.node.getD 2 0 % 256,
    s.node.getD 3 0 % 256, s.node.getD 4 0 % 256, s.node.getD 5 0 % 256 ]

def UUID_TIME_HI_AND_VERSION_MASK_TIME : Nat := 0x0FFF
def UUID_TIME_HI_AND_VERSION_OFFSET_VERSION : Nat := 12
def UUID_CLOCK_SEQ_AND_RESERVED_MASK_1 : Nat := 0x3F
def UUID_CLOCK_SEQ_AND_RESERVED_MASK_2 : Nat := 0x80

/-- Embeds `uuid_generate_v5`. The SHA-1 digest of `namespace || data` is an
external mbedTLS computation; the embedding abstracts it as the function
argument `sha1` (any function from the concatenated input to the digest bytes),
and performs the truncation to 16 bytes and the version/variant fixups exactly
as the source does. -/
def uuid_generate_v5 (sha1 : List Nat → List Nat) (namesp data : List Nat) : List Nat :=
  let sha_result := sha1 (namesp ++ data)
  -- This will use the first 16 bytes of the digest
  let s := uuid_to_struct sha_result
  let version : Nat := 5
  let s := { s with
    time_hi_and_version :=
      (s.time_hi_and_version &&& UUID_TIME_HI_AND_VERSION_MASK_TIME) |||
        (version <<< UUID_TIME_HI_AND_VERSION_OFFSET_VERSION)
    clock_seq_hi_res :=
      (s.clock_seq_hi_res &&& UUID_CLOCK_SEQ_AND_RESERVED_MASK_1) |||
        UUID_CLOCK_SEQ_AND_RESERVED_MASK_2 }
  uuid_from_struct s

end Uuid

namespace Uuid

/-- ASCII code of the hyphen character. -/
def HYPHEN : Nat := 45

/-- Hyphen positions inside the canonical string (8, 13, 18, 23). -/
def is_hyphen_position (i : Nat) : Bool :=
  i == 8 || i == 13 || i == 18 || i == 23

/-- Lowercase hex digit emitted by `snprintf %x` for one nibble. -/
def hex_digit (n : Nat) : Nat :=
  if n < 10 then 48 + n else if n < 16 then 97 + (n - 10) else 48

/-- C `isxdigit` on an ASCII byte. -/
def isxdigit (c : Nat) : Bool :=
  (48 ≤ c && c ≤ 57) || (97 ≤ c && c ≤ 102) || (65 ≤ c && c ≤ 70)

/-- Numeric value of a hex digit, as used by `strtoul(_, _, 16)`. -/
def hex_val (c : Nat) : Nat :=
  if 48 ≤ c ∧ c ≤ 57 then c - 48
  else if 97 ≤ c ∧ c ≤ 102 then c - 87
  else if 65 ≤ c ∧ c ≤ 70 then c - 55
  else 0

/-- Fixed-width lowercase hex printing (`%08x`, `%04x`, `%02x`). -/
def hex_fixed : Nat → Nat → List Nat
  | 0, _ => []
  | w + 1, v => hex_fixed w (v / 16) ++ [hex_digit (v % 16)]

/-- Value of a run of hex digits, most significant first (`strtoul` base 16,
restricted to the digits the sanity check has already validated). -/
def parse_hex (ds : List Nat) : Nat :=
  ds.foldl (fun a c => a * 16 + hex_val c) 0

/-- Embeds the sanity-check loop of `uuid_from_string`: character at a hyphen
position must be `-`, every other character must be a hex digit. -/
def sanity_check : List Nat → Nat → Bool
  | [], _ => true
  | c :: rest, i =>
    (if is_hyphen_position i then c == HYPHEN else isxdigit c) && sanity_check rest (i + 1)

/-- Embeds `uuid_from_string`. After the length and sanity checks, the C code
extracts each field with `strtoul` starting at a fixed offset; since every
character up to the following hyphen is a hex digit and `strtoul` stops at the
hyphen, the extraction reads exactly the fixed-width groups below. -/
def uuid_from_string (input : List Nat) : Except astarte_result (List Nat) :=
  if input.length ≠ UUID_STR_LEN then .error ASTARTE_RESULT_INTERNAL_ERROR
  else if ¬ sanity_check input 0 then .error ASTARTE_RESULT_INTERNAL_ERROR
  else
    .ok (uuid_from_struct
      { time_low := parse_hex (input.take 8)
        time_mid := parse_hex ((input.drop 9).take 4)
        time_hi_and_version := parse_hex ((input.drop 14).take 4)
        clock_seq_hi_res := parse_hex ((input.drop 19).take 2)
        clock_seq_low := parse_hex ((input.drop 21).take 2)
        node := (List.range 6).map fun i => parse_hex ((input.drop (24 + 2 * i)).take 2) })

/-- Embeds `uuid_to_string`: requires a buffer of `UUID_STR_LEN + 1` bytes and
prints `%08x-%04x-%04x-%02x%02x-%02x%02x%02x%02x%02x%02x` of the struct fields. -/
def uuid_to_string (uuid : List Nat) (out_size : Nat) : Except astarte_result (List Nat) :=
  if out_size < UUID_STR_LEN + 1 then .error ASTARTE_RESULT_INVALID_PARAM
  else
    let s := uuid_to_struct uuid
    .ok (hex_fixed 8 s.time_low ++ [HYPHEN] ++ hex_fixed 4 s.time_mid ++ [HYPHEN]
      ++ hex_fixed 4 s.time_hi_and_version ++ [HYPHEN]
      ++ hex_fixed 2 s.clock_seq_hi_res ++ hex_fixed 2 s.clock_seq_low ++ [HYPHEN]
      ++ hex_fixed 2 (s.node.getD 0 0) ++ hex_fixed 2 (s.node.getD 1 0)
      ++ hex_fixed 2 (s.node.getD 2 0) ++ hex_fixed 2 (s.node.getD 3 0)
      ++ hex_fixed 2 (s.node.getD 4 0) ++ hex_fixed 2 (s.node.getD 5 0))

end Uuid

namespace Uuid

/-- Right shift distributes over bitwise or. -/
theorem shiftRight_lor_distrib (x y k : Nat) : (x ||| y) >>> k = (x >>> k) ||| (y >>> k) := by
  apply Nat.eq_of_testBit_eq
  intro i
  simp [Nat.testBit_shiftRight, Nat.testBit_lor]

theorem small_lor_80 : ∀ z < 16, (z ||| 80) % 256 / 16 = 5 := by decide

theorem small_lor_128 : ∀ z < 64, (z ||| 128) % 256 / 64 = 2 := by decide

/-- After the v5 version fixup, the high nibble of byte 6 is 5 for every input. -/
theorem version_nibble_fixup (t : Nat) :
    ((t &&& 0x0FFF) ||| (5 <<< 12)) / 2 ^ 8 % 256 / 16 = 5 := by
  have hx : t &&& 0x0FFF ≤ 4095 := Nat.and_le_right
  have hs : (5 : Nat) <<< 12 = 20480 := by decide
  have hdiv : ((t &&& 0x0FFF) ||| 20480) / 2 ^ 8
      = ((t &&& 0x0FFF) >>> 8) ||| (20480 >>> 8) := by
    rw [← Nat.shiftRight_eq_div_pow, shiftRight_lor_distrib]
  have hz : (t &&& 0x0FFF) >>> 8 < 16 := by
    rw [Nat.shiftRight_eq_div_pow]
    omega
  rw [hs, hdiv]
  have h80 : (20480 : Nat) >>> 8 = 80 := by decide
  rw [h80]
  exact small_lor_80 _ hz

/-- After the variant fixup, the top two bits of byte 8 are `10` for every input. -/
theorem variant_bits_fixup (c : Nat) :
    ((c &&& 0x3F) ||| 0x80) % 256 / 64 = 2 := by
  have hx : c &&& 0x3F ≤ 63 := Nat.and_le_right
  exact small_lor_128 _ (by omega)

end Uuid

namespace Uuid

/-- Claim C7: for every 16-byte namespace and every byte string, v5 UUID
generation is deterministic (two runs on the same `(namespace, data)` produce
the same 16 bytes, computed as the truncated digest of `namespace ++ data` with
the version/variant fixups applied), the result is 16 bytes long, the high
nibble of byte 6 equals `0101` (5) and the two most significant bits of byte 8
equal `10` (so byte 8 divided by 64 is 2). -/
theorem uuid_generate_v5_deterministic_versioned :
    (∀ (sha1 : List Nat → List Nat) (ns₁ d₁ ns₂ d₂ : List Nat),
        ns₁ = ns₂ → d₁ = d₂ →
        uuid_generate_v5 sha1 ns₁ d₁ = uuid_generate_v5 sha1 ns₂ d₂)
    ∧ (∀ (sha1 : List Nat → List Nat) (ns d : List Nat),
        (uuid_generate_v5 sha1 ns d).length = UUID_SIZE
        ∧ (uuid_generate_v5 sha1 ns d).getD 6 0 / 16 = 5
        ∧ (uuid_generate_v5 sha1 ns d).getD 8 0 / 64 = 2) := by
  constructor
  · intro sha1 ns₁ d₁ ns₂ d₂ hns hd
    rw [hns, hd]
  · intro sha1 ns d
    refine ⟨rfl, ?_, ?_⟩
    · have h := version_nibble_fixup (uuid_to_struct (sha1 (ns ++ d))).time_hi_and_version
      simpa [uuid_generate_v5, uuid_from_struct, UUID_TIME_HI_AND_VERSION_MASK_TIME,
        UUID_TIME_HI_AND_VERSION_OFFSET_VERSION] using h
    · have h := variant_bits_fixup (uuid_to_struct (sha1 (ns ++ d))).clock_seq_hi_res
      simpa [uuid_generate_v5, uuid_from_struct, UUID_CLOCK_SEQ_AND_RESERVED_MASK_1,
        UUID_CLOCK_SEQ_AND_RESERVED_MASK_2] using h

/-- Witness for C7 at a concrete digest function, namespace and data. -/
theorem uuid_generate_v5_deterministic_versioned_witness :
    uuid_generate_v5 (fun l => l ++ List.range 20) (List.replicate 16 0) [1, 2, 3]
      = uuid_generate_v5 (fun l => l ++ List.range 20) (List.replicate 16 0) [1, 2, 3]
    ∧ (uuid_generate_v5 (fun l => l ++ List.range 20) (List.replicate 16 0) [1, 2, 3]).getD 6 0 / 16
      = 5 :=
  ⟨uuid_generate_v5_deterministic_versioned.1 _ _ _ _ _ rfl rfl,
   (uuid_generate_v5_deterministic_versioned.2 (fun l => l ++ List.range 20)
      (List.replicate 16 0) [1, 2, 3]).2.1⟩

end Uuid

namespace Uuid

theorem isxdigit_hex_digit (n : Nat) : isxdigit (hex_digit n) = true := by
  unfold isxdigit hex_digit
  split_ifs <;> simp <;> omega

theorem hex_val_hex_digit_mod (v : Nat) : hex_val (hex_digit (v % 16)) = v % 16 := by
  unfold hex_val hex_digit
  have : v % 16 < 16 := Nat.mod_lt _ (by omega)
  split_ifs <;> omega

end Uuid

namespace Uuid

set_option maxHeartbeats 1000000 in
/-- Claim C8: for every 16-byte UUID, printing it with `uuid_to_string` into a
buffer of at least 37 bytes and parsing the 36-character result back with
`uuid_from_string` succeeds and returns exactly the original 16 bytes. -/
theorem uuid_string_roundtrip (u : List Nat) (out_size : Nat)
    (h16 : u.length = 16) (hb : ∀ b ∈ u, b < 256) (hsz : UUID_STR_LEN + 1 ≤ out_size) :
    Except.bind (uuid_to_string u out_size) uuid_from_string = .ok u := by
  rcases u with _ | ⟨b0, _ | ⟨b1, _ | ⟨b2, _ | ⟨b3, _ | ⟨b4, _ | ⟨b5, _ | ⟨b6, _ | ⟨b7, _ |
    ⟨b8, _ | ⟨b9, _ | ⟨b10, _ | ⟨b11, _ | ⟨b12, _ | ⟨b13, _ | ⟨b14, _ | ⟨b15,
    rest⟩⟩⟩⟩⟩⟩⟩⟩⟩⟩⟩⟩⟩⟩⟩⟩ <;>
    simp only [List.length_cons, List.length_nil] at h16 <;> try omega
  have hrest : rest = [] := List.length_eq_zero.mp (by omega)
  subst hrest
  have hb0 : b0 < 256 := hb _ (by simp)
  have hb1 : b1 < 256 := hb _ (by simp)
  have hb2 : b2 < 256 := hb _ (by simp)
  have hb3 : b3 < 256 := hb _ (by simp)
  have hb4 : b4 < 256 := hb _ (by simp)
  have hb5 : b5 < 256 := hb _ (by simp)
  have hb6 : b6 < 256 := hb _ (by simp)
  have hb7 : b7 < 256 := hb _ (by simp)
  have hb8 : b8 < 256 := hb _ (by simp)
  have hb9 : b9 < 256 := hb _ (by simp)
  have hb10 : b10 < 256 := hb _ (by simp)
  have hb11 : b11 < 256 := hb _ (by simp)
  have hb12 : b12 < 256 := hb _ (by simp)
  have hb13 : b13 < 256 := hb _ (by simp)
  have hb14 : b14 < 256 := hb _ (by simp)
  have hb15 : b15 < 256 := hb _ (by simp)
  rw [uuid_to_string, if_neg (by omega)]
  simp only [uuid_to_struct, uuid_byte, List.getD_cons_zero, List.getD_cons_succ,
    List.getD_nil, Nat.mod_eq_of_lt hb0, Nat.mod_eq_of_lt hb1, Nat.mod_eq_of_lt hb2,
    Nat.mod_eq_of_lt hb3, Nat.mod_eq_of_lt hb4, Nat.mod_eq_of_lt hb5, Nat.mod_eq_of_lt hb6,
    Nat.mod_eq_of_lt hb7, Nat.mod_eq_of_lt hb8, Nat.mod_eq_of_lt hb9, Nat.mod_eq_of_lt hb10,
    Nat.mod_eq_of_lt hb11, Nat.mod_eq_of_lt hb12, Nat.mod_eq_of_lt hb13, Nat.mod_eq_of_lt hb14,
    Nat.mod_eq_of_lt hb15]
  simp only [hex_fixed, List.nil_append, List.cons_append, List.append_assoc,
    List.singleton_append]
  rw [Except.bind]
  rw [uuid_from_string]
  rw [if_neg (by simp [UUID_STR_LEN])]
  rw [if_neg (by simp [sanity_check, is_hyphen_position, HYPHEN, isxdigit_hex_digit])]
  simp only [Except.ok.injEq]
  simp only [List.take, List.drop, parse_hex, List.foldl, hex_val_hex_digit_mod,
    uuid_from_struct, List.range_succ, List.range_zero, List.map, List.getD_cons_zero,
    List.getD_cons_succ, List.getD_nil]
  simp only [List.cons.injEq, and_true]
  refine ⟨?_, ?_, ?_, ?_, ?_, ?_, ?_, ?_, ?_, ?_, ?_, ?_, ?_, ?_, ?_, ?_⟩ <;> omega

/-- Witness for C8 at a concrete UUID and buffer size. -/
theorem uuid_string_roundtrip_witness :
    Except.bind (uuid_to_string (List.range 16) 37) uuid_from_string
      = .ok (List.range 16) :=
  uuid_string_roundtrip (List.range 16) 37 (by decide) (by decide) (by decide)

end Uuid

namespace Data

/-- Mapping types of `astarte_mapping_type_t` (7 scalar types and their arrays). -/
inductive astarte_mapping_type where
  | ASTARTE_MAPPING_TYPE_BINARYBLOB
  | ASTARTE_MAPPING_TYPE_BOOLEAN
  | ASTARTE_MAPPING_TYPE_DATETIME
  | ASTARTE_MAPPING_TYPE_DOUBLE
  | ASTARTE_MAPPING_TYPE_INTEGER
  | ASTARTE_MAPPING_TYPE_LONGINTEGER
  | ASTARTE_MAPPING_TYPE_STRING
  | ASTARTE_MAPPING_TYPE_BINARYBLOBARRAY
  | ASTARTE_MAPPING_TYPE_BOOLEANARRAY
  | ASTARTE_MAPPING_TYPE_DATETIMEARRAY
  | ASTARTE_MAPPING_TYPE_DOUBLEARRAY
  | ASTARTE_MAPPING_TYPE_INTEGERARRAY
  | ASTARTE_MAPPING_TYPE_LONGINTEGERARRAY
  | ASTARTE_MAPPING_TYPE_STRINGARRAY
  deriving DecidableEq, Repr

export astarte_mapping_type (ASTARTE_MAPPING_TYPE_BINARYBLOB ASTARTE_MAPPING_TYPE_BOOLEAN
  ASTARTE_MAPPING_TYPE_DATETIME ASTARTE_MAPPING_TYPE_DOUBLE ASTARTE_MAPPING_TYPE_INTEGER
  ASTARTE_MAPPING_TYPE_LONGINTEGER ASTARTE_MAPPING_TYPE_STRING
  ASTARTE_MAPPING_TYPE_BINARYBLOBARRAY ASTARTE_MAPPING_TYPE_BOOLEANARRAY
  ASTARTE_MAPPING_TYPE_DATETIMEARRAY ASTARTE_MAPPING_TYPE_DOUBLEARRAY
  ASTARTE_MAPPING_TYPE_INTEGERARRAY ASTARTE_MAPPING_TYPE_LONGINTEGERARRAY
  ASTARTE_MAPPING_TYPE_STRINGARRAY)

/-- BSON type bytes of `bson_types.h` (the subset used by the SDK). -/
def ASTARTE_BSON_TYPE_DOUBLE : Nat := 0x01
def ASTARTE_BSON_TYPE_STRING : Nat := 0x02
def ASTARTE_BSON_TYPE_DOCUMENT : Nat := 0x03
def ASTARTE_BSON_TYPE_ARRAY : Nat := 0x04
def ASTARTE_BSON_TYPE_BINARY : Nat := 0x05
def ASTARTE_BSON_TYPE_BOOLEAN : Nat := 0x08
def ASTARTE_BSON_TYPE_DATETIME : Nat := 0x09
def ASTARTE_BSON_TYPE_INT32 : Nat := 0x10
def ASTARTE_BSON_TYPE_INT64 : Nat := 0x12

/-- Body of a parsed BSON element as handed to `data.c`. The wire carries a type
byte followed by the body; parsing a body under a given type byte yields one of
these shapes, so the type byte of an element is recovered by `bson_elem_type`.
Element names are irrelevant to `data.c` (the array walk is positional) and are
dropped. Doubles are carried as opaque `Int` bit patterns. -/
inductive astarte_bson_element_t where
  | double (bits : Int)
  | string (s : List Char)
  | document (elems : List astarte_bson_element_t)
  | array (elems : List astarte_bson_element_t)
  | binary (bytes : List Nat)
  | boolean (b : Bool)
  | datetime (v : Int)
  | int32 (v : Int)
  | int64 (v : Int)

/-- Wire type byte of an element (the `type` field of `astarte_bson_element_t`). -/
def bson_elem_type : astarte_bson_element_t → Nat
  | .double _ => ASTARTE_BSON_TYPE_DOUBLE
  | .string _ => ASTARTE_BSON_TYPE_STRING
  | .document _ => ASTARTE_BSON_TYPE_DOCUMENT
  | .array _ => ASTARTE_BSON_TYPE_ARRAY
  | .binary _ => ASTARTE_BSON_TYPE_BINARY
  | .boolean _ => ASTARTE_BSON_TYPE_BOOLEAN
  | .datetime _ => ASTARTE_BSON_TYPE_DATETIME
  | .int32 _ => ASTARTE_BSON_TYPE_INT32
  | .int64 _ => ASTARTE_BSON_TYPE_INT64

/-- Modelled from the spec: typed accessor `astarte_bson_deserializer_element_to_int32`
of the BSON deserializer (`bson_deserializer.c`, not under `src/`); accessors
"never allocate" and read the body in place. -/
def astarte_bson_deserializer_element_to_int32 : astarte_bson_element_t → Int
  | .int32 v => v
  | _ => 0

/-- Modelled from the spec: accessor `astarte_bson_deserializer_element_to_int64`. -/
def astarte_bson_deserializer_element_to_int64 : astarte_bson_element_t → Int
  | .int64 v => v
  | _ => 0

/-- Modelled from the spec: accessor `astarte_bson_deserializer_element_to_bool`. -/
def astarte_bson_deserializer_element_to_bool : astarte_bson_element_t → Bool
  | .boolean b => b
  | _ => false

/-- Modelled from the spec: accessor `astarte_bson_deserializer_element_to_datetime`. -/
def astarte_bson_deserializer_element_to_datetime : astarte_bson_element_t → Int
  | .datetime v => v
  | _ => 0

/-- Modelled from the spec: accessor `astarte_bson_deserializer_element_to_double`. -/
def astarte_bson_deserializer_element_to_double : astarte_bson_element_t → Int
  | .double v => v
  | _ => 0

/-- Modelled from the spec: accessor `astarte_bson_deserializer_element_to_string`
(returns a borrow of the string body). -/
def astarte_bson_deserializer_element_to_string : astarte_bson_element_t → List Char
  | .string s => s
  | _ => []

/-- Modelled from the spec: accessor `astarte_bson_deserializer_element_to_binary`
(returns a borrow of the payload and its length). -/
def astarte_bson_deserializer_element_to_binary : astarte_bson_element_t → List Nat
  | .binary b => b
  | _ => []

/-- Modelled from the spec: accessor `astarte_bson_deserializer_element_to_array`:
the nested document whose elements are walked with the first/next primitives. -/
def astarte_bson_deserializer_element_to_array : astarte_bson_element_t →
    List astarte_bson_element_t
  | .array l => l
  | _ => []

end Data

namespace Data

/-- Tagged union `astarte_data_t` (`data.h`): one variant per mapping type.
Binary-blob arrays carry the `blobs` and `sizes` fields of the C struct (the
`count` field always equals the number of blobs in any value the SDK builds). -/
inductive astarte_data_t where
  | binaryblob (buf : List Nat)
  | boolean (b : Bool)
  | datetime (v : Int)
  | dbl (bits : Int)
  | integer (v : Int)
  | longinteger (v : Int)
  | string (s : List Char)
  | binaryblob_array (blobs : List (List Nat)) (sizes : List Nat)
  | boolean_array (buf : List Bool)
  | datetime_array (buf : List Int)
  | double_array (buf : List Int)
  | integer_array (buf : List Int)
  | longinteger_array (buf : List Int)
  | string_array (buf : List (List Char))
  deriving DecidableEq, Repr

/-- Embeds `astarte_data_from_boolean`. -/
def astarte_data_from_boolean (b : Bool) : astarte_data_t := .boolean b

/-- Embeds `astarte_data_from_datetime`. -/
def astarte_data_from_datetime (v : Int) : astarte_data_t := .datetime v

/-- Embeds `astarte_data_from_double`. -/
def astarte_data_from_double (bits : Int) : astarte_data_t := .dbl bits

/-- Embeds `astarte_data_from_integer`. -/
def astarte_data_from_integer (v : Int) : astarte_data_t := .integer v

/-- Embeds `astarte_data_from_longinteger`. -/
def astarte_data_from_longinteger (v : Int) : astarte_data_t := .longinteger v

/-- Embeds `astarte_data_from_string` (the deserializer hands over an owned copy). -/
def astarte_data_from_string (s : List Char) : astarte_data_t := .string s

/-- Embeds `astarte_data_from_binaryblob` (buffer plus length; the length is the
list length in this embedding). -/
def astarte_data_from_binaryblob (buf : List Nat) : astarte_data_t := .binaryblob buf

/-- Embeds `astarte_data_get_type` (the `tag` field). -/
def astarte_data_get_type : astarte_data_t → astarte_mapping_type
  | .binaryblob _ => ASTARTE_MAPPING_TYPE_BINARYBLOB
  | .boolean _ => ASTARTE_MAPPING_TYPE_BOOLEAN
  | .datetime _ => ASTARTE_MAPPING_TYPE_DATETIME
  | .dbl _ => ASTARTE_MAPPING_TYPE_DOUBLE
  | .integer _ => ASTARTE_MAPPING_TYPE_INTEGER
  | .longinteger _ => ASTARTE_MAPPING_TYPE_LONGINTEGER
  | .string _ => ASTARTE_MAPPING_TYPE_STRING
  | .binaryblob_array _ _ => ASTARTE_MAPPING_TYPE_BINARYBLOBARRAY
  | .boolean_array _ => ASTARTE_MAPPING_TYPE_BOOLEANARRAY
  | .datetime_array _ => ASTARTE_MAPPING_TYPE_DATETIMEARRAY
  | .double_array _ => ASTARTE_MAPPING_TYPE_DOUBLEARRAY
  | .integer_array _ => ASTARTE_MAPPING_TYPE_INTEGERARRAY
  | .longinteger_array _ => ASTARTE_MAPPING_TYPE_LONGINTEGERARRAY
  | .string_array _ => ASTARTE_MAPPING_TYPE_STRINGARRAY

/-- Expected BSON type byte for a mapping type, as assigned by the `switch` of
`check_if_bson_type_is_mapping_type` in `data.c`. -/
def expected_bson_type : astarte_mapping_type → Nat
  | ASTARTE_MAPPING_TYPE_BINARYBLOB => ASTARTE_BSON_TYPE_BINARY
  | ASTARTE_MAPPING_TYPE_BOOLEAN => ASTARTE_BSON_TYPE_BOOLEAN
  | ASTARTE_MAPPING_TYPE_DATETIME => ASTARTE_BSON_TYPE_DATETIME
  | ASTARTE_MAPPING_TYPE_DOUBLE => ASTARTE_BSON_TYPE_DOUBLE
  | ASTARTE_MAPPING_TYPE_INTEGER => ASTARTE_BSON_TYPE_INT32
  | ASTARTE_MAPPING_TYPE_LONGINTEGER => ASTARTE_BSON_TYPE_INT64
  | ASTARTE_MAPPING_TYPE_STRING => ASTARTE_BSON_TYPE_STRING
  | ASTARTE_MAPPING_TYPE_BINARYBLOBARRAY => ASTARTE_BSON_TYPE_ARRAY
  | ASTARTE_MAPPING_TYPE_BOOLEANARRAY => ASTARTE_BSON_TYPE_ARRAY
  | ASTARTE_MAPPING_TYPE_DATETIMEARRAY => ASTARTE_BSON_TYPE_ARRAY
  | ASTARTE_MAPPING_TYPE_DOUBLEARRAY => ASTARTE_BSON_TYPE_ARRAY
  | ASTARTE_MAPPING_TYPE_INTEGERARRAY => ASTARTE_BSON_TYPE_ARRAY
  | ASTARTE_MAPPING_TYPE_LONGINTEGERARRAY => ASTARTE_BSON_TYPE_ARRAY
  | ASTARTE_MAPPING_TYPE_STRINGARRAY => ASTARTE_BSON_TYPE_ARRAY

/-- Embeds `check_if_bson_type_is_mapping_type`: the int64-expects-int32
special case first, then exact comparison with the expected type byte. -/
def check_if_bson_type_is_mapping_type (mapping_type : astarte_mapping_type)
    (bson_type : Nat) : Bool :=
  let expected := expected_bson_type mapping_type
  if expected = ASTARTE_BSON_TYPE_INT64 ∧ bson_type = ASTARTE_BSON_TYPE_INT32 then true
  else bson_type == expected

/-- Modelled from the spec: `astarte_mapping_array_to_scalar_type` of
`mapping.c` (not under `src/`); maps each array mapping type to its scalar
form, failing on scalar input. -/
def astarte_mapping_array_to_scalar_type (t : astarte_mapping_type) :
    Except astarte_result astarte_mapping_type :=
  match t with
  | ASTARTE_MAPPING_TYPE_BINARYBLOBARRAY => .ok ASTARTE_MAPPING_TYPE_BINARYBLOB
  | ASTARTE_MAPPING_TYPE_BOOLEANARRAY => .ok ASTARTE_MAPPING_TYPE_BOOLEAN
  | ASTARTE_MAPPING_TYPE_DATETIMEARRAY => .ok ASTARTE_MAPPING_TYPE_DATETIME
  | ASTARTE_MAPPING_TYPE_DOUBLEARRAY => .ok ASTARTE_MAPPING_TYPE_DOUBLE
  | ASTARTE_MAPPING_TYPE_INTEGERARRAY => .ok ASTARTE_MAPPING_TYPE_INTEGER
  | ASTARTE_MAPPING_TYPE_LONGINTEGERARRAY => .ok ASTARTE_MAPPING_TYPE_LONGINTEGER
  | ASTARTE_MAPPING_TYPE_STRINGARRAY => .ok ASTARTE_MAPPING_TYPE_STRING
  | _ => .error ASTARTE_RESULT_INTERNAL_ERROR

/-- Embeds `initialize_empty_array`: an empty typed array value with no backing
buffer (NULL `buf`, length/count 0 — empty lists here) for array mapping types;
`ASTARTE_RESULT_INTERNAL_ERROR` for scalar mapping types. -/
def initialize_empty_array (type : astarte_mapping_type) :
    Except astarte_result astarte_data_t :=
  match type with
  | ASTARTE_MAPPING_TYPE_BINARYBLOBARRAY => .ok (.binaryblob_array [] [])
  | ASTARTE_MAPPING_TYPE_BOOLEANARRAY => .ok (.boolean_array [])
  | ASTARTE_MAPPING_TYPE_DATETIMEARRAY => .ok (.datetime_array [])
  | ASTARTE_MAPPING_TYPE_DOUBLEARRAY => .ok (.double_array [])
  | ASTARTE_MAPPING_TYPE_INTEGERARRAY => .ok (.integer_array [])
  | ASTARTE_MAPPING_TYPE_LONGINTEGERARRAY => .ok (.longinteger_array [])
  | ASTARTE_MAPPING_TYPE_STRINGARRAY => .ok (.string_array [])
  | _ => .error ASTARTE_RESULT_INTERNAL_ERROR

/-- Embeds `deserialize_binaryblob` (copies the borrowed payload into an owned
buffer; allocation is assumed to succeed). -/
def deserialize_binaryblob (bson_elem : astarte_bson_element_t) :
    Except astarte_result astarte_data_t :=
  .ok (astarte_data_from_binaryblob (astarte_bson_deserializer_element_to_binary bson_elem))

/-- Embeds `deserialize_string` (copies the borrowed string into an owned buffer). -/
def deserialize_string (bson_elem : astarte_bson_element_t) :
    Except astarte_result astarte_data_t :=
  .ok (astarte_data_from_string (astarte_bson_deserializer_element_to_string bson_elem))

/-- Embeds `deserialize_scalar`: type-byte check first, then per-type decode;
for `LONGINTEGER` an `INT32`-typed element is read as int32 and widened. -/
def deserialize_scalar (bson_elem : astarte_bson_element_t)
    (type : astarte_mapping_type) : Except astarte_result astarte_data_t :=
  if ¬ check_if_bson_type_is_mapping_type type (bson_elem_type bson_elem) then
    .error ASTARTE_RESULT_BSON_DESERIALIZER_TYPES_ERROR
  else
    match type with
    | ASTARTE_MAPPING_TYPE_BINARYBLOB => deserialize_binaryblob bson_elem
    | ASTARTE_MAPPING_TYPE_BOOLEAN =>
        .ok (astarte_data_from_boolean (astarte_bson_deserializer_element_to_bool bson_elem))
    | ASTARTE_MAPPING_TYPE_DATETIME =>
        .ok (astarte_data_from_datetime
          (astarte_bson_deserializer_element_to_datetime bson_elem))
    | ASTARTE_MAPPING_TYPE_DOUBLE =>
        .ok (astarte_data_from_double (astarte_bson_deserializer_element_to_double bson_elem))
    | ASTARTE_MAPPING_TYPE_INTEGER =>
        .ok (astarte_data_from_integer (astarte_bson_deserializer_element_to_int32 bson_elem))
    | ASTARTE_MAPPING_TYPE_LONGINTEGER =>
        .ok (astarte_data_from_longinteger
          (if bson_elem_type bson_elem = ASTARTE_BSON_TYPE_INT32 then
            astarte_bson_deserializer_element_to_int32 bson_elem
          else astarte_bson_deserializer_element_to_int64 bson_elem))
    | ASTARTE_MAPPING_TYPE_STRING => deserialize_string bson_elem
    | _ => .error ASTARTE_RESULT_INTERNAL_ERROR

/-- Embeds `deserialize_array_int64`: each element typed `INT32` is read as
int32 and widened, otherwise read as int64. -/
def deserialize_array_int64 (elems : List astarte_bson_element_t) :
    Except astarte_result astarte_data_t :=
  .ok (.longinteger_array (elems.map fun e =>
    if bson_elem_type e = ASTARTE_BSON_TYPE_INT32 then
      astarte_bson_deserializer_element_to_int32 e
    else astarte_bson_deserializer_element_to_int64 e))

/-- Embeds `deserialize_array`. The first/next element walk of the nested
document is the traversal of its element list: the first pass counts elements
and checks every element's type byte against the scalar form of the mapping
type (failing with the types error on the first mismatch), the second pass
fills the freshly allocated backing buffer. An empty nested document (no first
element) produces the empty typed array. -/
def deserialize_array (bson_elem : astarte_bson_element_t)
    (type : astarte_mapping_type) : Except astarte_result astarte_data_t :=
  if bson_elem_type bson_elem ≠ ASTARTE_BSON_TYPE_ARRAY then
    .error ASTARTE_RESULT_BSON_DESERIALIZER_TYPES_ERROR
  else
    let elems := astarte_bson_deserializer_element_to_array bson_elem
    if elems.isEmpty then initialize_empty_array type
    else
      match astarte_mapping_array_to_scalar_type type with
      | .error e => .error e
      | .ok scalar_type =>
        if ¬ elems.all (fun e => check_if_bson_type_is_mapping_type scalar_type
            (bson_elem_type e)) then
          .error ASTARTE_RESULT_BSON_DESERIALIZER_TYPES_ERROR
        else
          match scalar_type with
          | ASTARTE_MAPPING_TYPE_BINARYBLOB =>
              .ok (.binaryblob_array
                (elems.map astarte_bson_deserializer_element_to_binary)
                (elems.map fun e => (astarte_bson_deserializer_element_to_binary e).length))
          | ASTARTE_MAPPING_TYPE_BOOLEAN =>
              .ok (.boolean_array (elems.map astarte_bson_deserializer_element_to_bool))
          | ASTARTE_MAPPING_TYPE_DATETIME =>
              .ok (.datetime_array (elems.map astarte_bson_deserializer_element_to_datetime))
          | ASTARTE_MAPPING_TYPE_DOUBLE =>
              .ok (.double_array (elems.map astarte_bson_deserializer_element_to_double))
          | ASTARTE_MAPPING_TYPE_INTEGER =>
              .ok (.integer_array (elems.map astarte_bson_deserializer_element_to_int32))
          | ASTARTE_MAPPING_TYPE_LONGINTEGER => deserialize_array_int64 elems
          | ASTARTE_MAPPING_TYPE_STRING =>
              .ok (.string_array (elems.map astarte_bson_deserializer_element_to_string))
          | _ => .error ASTARTE_RESULT_INTERNAL_ERROR

/-- Embeds `astarte_data_deserialize`: dispatch to the scalar or array path. -/
def astarte_data_deserialize (bson_elem : astarte_bson_element_t)
    (type : astarte_mapping_type) : Except astarte_result astarte_data_t :=
  match type with
  | ASTARTE_MAPPING_TYPE_BINARYBLOB | ASTARTE_MAPPING_TYPE_BOOLEAN
  | ASTARTE_MAPPING_TYPE_DATETIME | ASTARTE_MAPPING_TYPE_DOUBLE
  | ASTARTE_MAPPING_TYPE_INTEGER | ASTARTE_MAPPING_TYPE_LONGINTEGER
  | ASTARTE_MAPPING_TYPE_STRING => deserialize_scalar bson_elem type
  | ASTARTE_MAPPING_TYPE_BINARYBLOBARRAY | ASTARTE_MAPPING_TYPE_BOOLEANARRAY
  | ASTARTE_MAPPING_TYPE_DATETIMEARRAY | ASTARTE_MAPPING_TYPE_DOUBLEARRAY
  | ASTARTE_MAPPING_TYPE_INTEGERARRAY | ASTARTE_MAPPING_TYPE_LONGINTEGERARRAY
  | ASTARTE_MAPPING_TYPE_STRINGARRAY => deserialize_array bson_elem type

end Data

namespace Data

/-- Observation helper: number of entries of an array value (0 for scalars). -/
def astarte_data_array_count : astarte_data_t → Nat
  | .binaryblob_array blobs _ => blobs.length
  | .boolean_array buf => buf.length
  | .datetime_array buf => buf.length
  | .double_array buf => buf.length
  | .integer_array buf => buf.length
  | .longinteger_array buf => buf.length
  | .string_array buf => buf.length
  | _ => 0

/-- Claim C5: for every array mapping type (the mapping types whose expected
BSON type byte is the array byte), deserializing a BSON array element whose
nested document has no first element succeeds via `initialize_empty_array` and
yields the empty typed array of that mapping type, with count zero (the empty
lists model the NULL backing buffers of the C value). -/
theorem deserialize_empty_array (t : astarte_mapping_type)
    (h : expected_bson_type t = ASTARTE_BSON_TYPE_ARRAY) :
    astarte_data_deserialize (.array []) t = initialize_empty_array t
    ∧ ∃ d, astarte_data_deserialize (.array []) t = .ok d
        ∧ astarte_data_get_type d = t ∧ astarte_data_array_count d = 0 := by
  cases t <;>
    simp_all [expected_bson_type, ASTARTE_BSON_TYPE_ARRAY, ASTARTE_BSON_TYPE_BINARY,
      ASTARTE_BSON_TYPE_BOOLEAN, ASTARTE_BSON_TYPE_DATETIME, ASTARTE_BSON_TYPE_DOUBLE,
      ASTARTE_BSON_TYPE_INT32, ASTARTE_BSON_TYPE_INT64, ASTARTE_BSON_TYPE_STRING,
      astarte_data_deserialize, deserialize_array, initialize_empty_array,
      astarte_bson_deserializer_element_to_array, bson_elem_type,
      astarte_data_get_type, astarte_data_array_count]

end Data

namespace Data

/-- Claim C4: a `long_integer` mapping accepts both the int32 (0x10) and the
int64 (0x12) BSON type byte, widening 32-bit payloads to their 64-bit value,
both for the scalar and (element-wise) for the `long_integer` array mapping;
every other mapping type accepts exactly its canonical BSON type byte, and a
non-matching type byte makes deserialization fail with the types error. -/
theorem long_integer_widening :
    (check_if_bson_type_is_mapping_type ASTARTE_MAPPING_TYPE_LONGINTEGER
        ASTARTE_BSON_TYPE_INT32 = true
      ∧ check_if_bson_type_is_mapping_type ASTARTE_MAPPING_TYPE_LONGINTEGER
        ASTARTE_BSON_TYPE_INT64 = true)
    ∧ (∀ v : Int, astarte_data_deserialize (.int32 v) ASTARTE_MAPPING_TYPE_LONGINTEGER
        = .ok (astarte_data_from_longinteger v))
    ∧ (∀ v : Int, astarte_data_deserialize (.int64 v) ASTARTE_MAPPING_TYPE_LONGINTEGER
        = .ok (astarte_data_from_longinteger v))
    ∧ (∀ l : List (Bool × Int),
        astarte_data_deserialize
          (.array (l.map fun p => if p.1 then .int32 p.2 else .int64 p.2))
          ASTARTE_MAPPING_TYPE_LONGINTEGERARRAY
        = .ok (.longinteger_array (l.map Prod.snd)))
    ∧ (∀ m, m ≠ ASTARTE_MAPPING_TYPE_LONGINTEGER →
        ∀ b, check_if_bson_type_is_mapping_type m b = true ↔ b = expected_bson_type m)
    ∧ (∀ (elem : astarte_bson_element_t) type,
        check_if_bson_type_is_mapping_type type (bson_elem_type elem) = false →
        astarte_data_deserialize elem type
          = .error ASTARTE_RESULT_BSON_DESERIALIZER_TYPES_ERROR) := by
  refine ⟨⟨by decide, by decide⟩, ?_, ?_, ?_, ?_, ?_⟩
  · intro v
    rfl
  · intro v
    rfl
  · intro l
    rcases l with _ | ⟨p, l⟩
    · rfl
    · have hall : ((p :: l).map fun q => if q.1 then astarte_bson_element_t.int32 q.2
          else astarte_bson_element_t.int64 q.2).all
          (fun e => check_if_bson_type_is_mapping_type ASTARTE_MAPPING_TYPE_LONGINTEGER
            (bson_elem_type e)) = true := by
        apply List.all_eq_true.mpr
        intro e he
        obtain ⟨q, hq, rfl⟩ := List.mem_map.mp he
        rcases q with ⟨b, v⟩
        cases b <;> rfl
      show deserialize_array _ _ = _
      unfold deserialize_array
      rw [if_neg (by simp [bson_elem_type, ASTARTE_BSON_TYPE_ARRAY])]
      show (if _ = true then _ else _) = _
      rw [if_neg (by simp [astarte_bson_deserializer_element_to_array])]
      simp only [astarte_bson_deserializer_element_to_array, astarte_mapping_array_to_scalar_type,
        hall, not_true_eq_false, if_false]
      show deserialize_array_int64 _ = _
      unfold deserialize_array_int64
      simp only [List.map_map, Except.ok.injEq, astarte_data_t.longinteger_array.injEq]
      apply List.map_congr_left
      intro q _
      rcases q with ⟨b, v⟩
      cases b <;> rfl
  · intro m hm b
    cases m <;>
      simp_all [check_if_bson_type_is_mapping_type, expected_bson_type,
        ASTARTE_BSON_TYPE_ARRAY, ASTARTE_BSON_TYPE_BINARY, ASTARTE_BSON_TYPE_BOOLEAN,
        ASTARTE_BSON_TYPE_DATETIME, ASTARTE_BSON_TYPE_DOUBLE, ASTARTE_BSON_TYPE_INT32,
        ASTARTE_BSON_TYPE_INT64, ASTARTE_BSON_TYPE_STRING]
  · intro elem type h
    cases type <;>
      simp_all [astarte_data_deserialize, deserialize_scalar, deserialize_array,
        check_if_bson_type_is_mapping_type, expected_bson_type,
        ASTARTE_BSON_TYPE_ARRAY, ASTARTE_BSON_TYPE_BINARY, ASTARTE_BSON_TYPE_BOOLEAN,
        ASTARTE_BSON_TYPE_DATETIME, ASTARTE_BSON_TYPE_DOUBLE, ASTARTE_BSON_TYPE_INT32,
        ASTARTE_BSON_TYPE_INT64, ASTARTE_BSON_TYPE_STRING]


/-- Witness for C5 at the integer-array mapping type. -/
theorem deserialize_empty_array_witness :
    astarte_data_deserialize (.array []) ASTARTE_MAPPING_TYPE_INTEGERARRAY
      = initialize_empty_array ASTARTE_MAPPING_TYPE_INTEGERARRAY
    ∧ ∃ d, astarte_data_deserialize (.array []) ASTARTE_MAPPING_TYPE_INTEGERARRAY = .ok d
        ∧ astarte_data_get_type d = ASTARTE_MAPPING_TYPE_INTEGERARRAY
        ∧ astarte_data_array_count d = 0 :=
  deserialize_empty_array ASTARTE_MAPPING_TYPE_INTEGERARRAY (by decide)

/-- Witness for C4: concrete instances discharging the hypotheses of the
canonical-type-byte clause and the mismatch clause. -/
theorem long_integer_widening_witness :
    (check_if_bson_type_is_mapping_type ASTARTE_MAPPING_TYPE_INTEGER
        ASTARTE_BSON_TYPE_INT64 = true
      ↔ ASTARTE_BSON_TYPE_INT64 = expected_bson_type ASTARTE_MAPPING_TYPE_INTEGER)
    ∧ astarte_data_deserialize (.int64 7) ASTARTE_MAPPING_TYPE_INTEGER
      = .error ASTARTE_RESULT_BSON_DESERIALIZER_TYPES_ERROR :=
  ⟨long_integer_widening.2.2.2.2.1 ASTARTE_MAPPING_TYPE_INTEGER (by decide)
      ASTARTE_BSON_TYPE_INT64,
   long_integer_widening.2.2.2.2.2 (.int64 7) ASTARTE_MAPPING_TYPE_INTEGER (by decide)⟩

end Data

namespace DeviceConnection

/-- Connection states of `device_connection.h` (`device_connection_state_t`). -/
inductive device_connection_state where
  | DEVICE_DISCONNECTED
  | DEVICE_MQTT_CONNECTING
  | DEVICE_START_HANDSHAKE
  | DEVICE_END_HANDSHAKE
  | DEVICE_HANDSHAKE_ERROR
  | DEVICE_CONNECTED
  deriving DecidableEq, Repr

export device_connection_state (DEVICE_DISCONNECTED DEVICE_MQTT_CONNECTING
  DEVICE_START_HANDSHAKE DEVICE_END_HANDSHAKE DEVICE_HANDSHAKE_ERROR DEVICE_CONNECTED)

/-- The fields of `struct astarte_device` read or written by the connection
state machine. `introspection` is the string `introspection_fill_string` would
produce (the introspection module is not under `src/`); `cached_introspection`
is the introspection persisted by `device_caching` (also not under `src/`),
`none` when the storage holds no entry. The permanent-storage configuration
(`CONFIG_ASTARTE_DEVICE_SDK_PERMANENT_STORAGE`) is the one embedded. -/
structure astarte_device where
  connection_state : device_connection_state
  mqtt_session_present_flag : Nat
  subscription_failure : Bool
  introspection : List Char
  cached_introspection : Option (List Char)
  connection_cbk : Bool
  deriving DecidableEq, Repr

/-- Modelled from the spec: `astarte_device_caching_introspection_check` of
`device_caching.c` (not under `src/`): `Ok` when the stored introspection
equals the given one, `Outdated` when a different one is stored, `NotFound`
when the storage holds none. -/
def astarte_device_caching_introspection_check (cached : Option (List Char))
    (intr_str : List Char) : astarte_result :=
  match cached with
  | none => ASTARTE_RESULT_NOT_FOUND
  | some stored =>
    if stored = intr_str then ASTARTE_RESULT_OK
    else ASTARTE_RESULT_DEVICE_CACHING_OUTDATED_INTROSPECTION

/-- Observable side effects of one handshake-runner tick: whether
`setup_subscriptions` ran, the introspection payload published on the base
topic (QoS 2, retain false), whether the empty-cache byte was published, and
whether the user connection callback fired. -/
structure handshake_effects where
  subscribed : Bool
  published_introspection : Option (List Char)
  published_emptycache : Bool
  fired_connection_cbk : Bool
  deriving DecidableEq, Repr

/-- A tick with no externally visible effect. -/
def no_effects : handshake_effects :=
  { subscribed := false, published_introspection := none,
    published_emptycache := false, fired_connection_cbk := false }

/-- Embeds `state_machine_start_handshake_run` (permanent-storage build): on a
resumed MQTT session whose cached introspection matches the one the device
would publish, go straight to `DEVICE_CONNECTED` with no effect; otherwise
reset the subscription-failure flag, subscribe, publish introspection and
empty-cache, and go to `DEVICE_END_HANDSHAKE`. -/
def state_machine_start_handshake_run (device : astarte_device) :
    astarte_device × handshake_effects :=
  let intr_str := device.introspection
  if device.mqtt_session_present_flag ≠ 0 ∧
      astarte_device_caching_introspection_check device.cached_introspection intr_str
        = ASTARTE_RESULT_OK then
    ({ device with connection_state := DEVICE_CONNECTED }, no_effects)
  else
    ({ device with
        subscription_failure := false
        connection_state := DEVICE_END_HANDSHAKE },
      { subscribed := true, published_introspection := some intr_str,
        published_emptycache := true, fired_connection_cbk := false })

/-- Embeds `state_machine_end_handshake_run` (permanent-storage build).
`has_pending_outgoing` is the answer of the external `astarte_mqtt` layer. On
completion the cached introspection is re-checked and overwritten only when the
check reports it outdated, and the user connection callback fires. -/
def state_machine_end_handshake_run (device : astarte_device)
    (has_pending_outgoing : Bool) : astarte_device × handshake_effects :=
  if device.subscription_failure then
    ({ device with connection_state := DEVICE_HANDSHAKE_ERROR }, no_effects)
  else if ¬ has_pending_outgoing then
    let device := { device with connection_state := DEVICE_CONNECTED }
    let intr_str := device.introspection
    let ares := astarte_device_caching_introspection_check device.cached_introspection intr_str
    let device :=
      if ares = ASTARTE_RESULT_DEVICE_CACHING_OUTDATED_INTROSPECTION then
        { device with cached_introspection := some intr_str }
      else device
    (device, { no_effects with fired_connection_cbk := device.connection_cbk })
  else (device, no_effects)

/-- Embeds `astarte_device_connection_connect`. `mqtt_connect_result` is the
result of the external `astarte_mqtt_connect` call; the third component records
whether that call was made. -/
def astarte_device_connection_connect (device : astarte_device)
    (mqtt_connect_result : astarte_result) :
    astarte_result × astarte_device × Bool :=
  match device.connection_state with
  | DEVICE_MQTT_CONNECTING | DEVICE_START_HANDSHAKE | DEVICE_END_HANDSHAKE =>
    (ASTARTE_RESULT_MQTT_CLIENT_ALREADY_CONNECTING, device, false)
  | DEVICE_CONNECTED =>
    (ASTARTE_RESULT_MQTT_CLIENT_ALREADY_CONNECTED, device, false)
  | _ =>
    if mqtt_connect_result = ASTARTE_RESULT_OK then
      (mqtt_connect_result,
        { device with connection_state := DEVICE_MQTT_CONNECTING }, true)
    else (mqtt_connect_result, device, true)

/-- Embeds `astarte_device_connection_disconnect`. `mqtt_disconnect_result` is
the result of the external `astarte_mqtt_disconnect` call. -/
def astarte_device_connection_disconnect (device : astarte_device)
    (mqtt_disconnect_result : astarte_result) : astarte_result :=
  if device.connection_state = DEVICE_DISCONNECTED then
    ASTARTE_RESULT_DEVICE_NOT_READY
  else mqtt_disconnect_result

end DeviceConnection

namespace DeviceConnection

/-- Claim C3: `connect()` in the three connecting states returns the
already-connecting error, in `Connected` the already-connected error, both
leaving the device (in particular its state) unchanged and without calling into
the MQTT layer; `disconnect()` in `Disconnected` returns the not-ready error. -/
theorem connect_disconnect_guards :
    (∀ (d : astarte_device) (r : astarte_result),
        d.connection_state = DEVICE_MQTT_CONNECTING ∨
          d.connection_state = DEVICE_START_HANDSHAKE ∨
          d.connection_state = DEVICE_END_HANDSHAKE →
        astarte_device_connection_connect d r
          = (ASTARTE_RESULT_MQTT_CLIENT_ALREADY_CONNECTING, d, false))
    ∧ (∀ (d : astarte_device) (r : astarte_result),
        d.connection_state = DEVICE_CONNECTED →
        astarte_device_connection_connect d r
          = (ASTARTE_RESULT_MQTT_CLIENT_ALREADY_CONNECTED, d, false))
    ∧ (∀ (d : astarte_device) (r : astarte_result),
        d.connection_state = DEVICE_DISCONNECTED →
        astarte_device_connection_disconnect d r = ASTARTE_RESULT_DEVICE_NOT_READY) := by
  refine ⟨?_, ?_, ?_⟩
  · intro d r h
    unfold astarte_device_connection_connect
    rcases h with h | h | h <;> rw [h]
  · intro d r h
    unfold astarte_device_connection_connect
    rw [h]
  · intro d r h
    unfold astarte_device_connection_disconnect
    rw [if_pos h]

/-- Witness for C3 at concrete devices in each guarded state. -/
theorem connect_disconnect_guards_witness :
    astarte_device_connection_connect
        { connection_state := DEVICE_START_HANDSHAKE, mqtt_session_present_flag := 0,
          subscription_failure := false, introspection := [], cached_introspection := none,
          connection_cbk := false } ASTARTE_RESULT_OK
      = (ASTARTE_RESULT_MQTT_CLIENT_ALREADY_CONNECTING,
          { connection_state := DEVICE_START_HANDSHAKE, mqtt_session_present_flag := 0,
            subscription_failure := false, introspection := [], cached_introspection := none,
            connection_cbk := false }, false)
    ∧ astarte_device_connection_disconnect
        { connection_state := DEVICE_DISCONNECTED, mqtt_session_present_flag := 0,
          subscription_failure := false, introspection := [], cached_introspection := none,
          connection_cbk := false } ASTARTE_RESULT_OK
      = ASTARTE_RESULT_DEVICE_NOT_READY :=
  ⟨connect_disconnect_guards.1 _ ASTARTE_RESULT_OK (Or.inr (Or.inl rfl)),
   connect_disconnect_guards.2.2 _ ASTARTE_RESULT_OK rfl⟩

/-- Claim C9: in `HandshakeError`, `connect()` is not intercepted by the state
guard (so it returns neither already-connecting nor already-connected on its
own): the external MQTT connect is initiated (third component `true`), its
result is returned unchanged, and on success the state becomes
`MqttConnecting` (otherwise the device is untouched). -/
theorem connect_in_handshake_error :
    ∀ (d : astarte_device) (r : astarte_result),
      d.connection_state = DEVICE_HANDSHAKE_ERROR →
      astarte_device_connection_connect d r
        = (r, (if r = ASTARTE_RESULT_OK then
            { d with connection_state := DEVICE_MQTT_CONNECTING } else d), true) := by
  intro d r h
  simp only [astarte_device_connection_connect, h]
  split <;> rfl

/-- Witness for C9 at a concrete device in `HandshakeError`. -/
theorem connect_in_handshake_error_witness :
    astarte_device_connection_connect
        { connection_state := DEVICE_HANDSHAKE_ERROR, mqtt_session_present_flag := 0,
          subscription_failure := true, introspection := [], cached_introspection := none,
          connection_cbk := false } ASTARTE_RESULT_OK
      = (ASTARTE_RESULT_OK,
          { connection_state := DEVICE_MQTT_CONNECTING, mqtt_session_present_flag := 0,
            subscription_failure := true, introspection := [], cached_introspection := none,
            connection_cbk := false }, true) := by
  have h := connect_in_handshake_error
      { connection_state := DEVICE_HANDSHAKE_ERROR, mqtt_session_present_flag := 0,
        subscription_failure := true, introspection := [], cached_introspection := none,
        connection_cbk := false } ASTARTE_RESULT_OK rfl
  simpa using h

end DeviceConnection

namespace DeviceConnection

/-- Claim C1 (amended): fast path and full handshake of
`state_machine_start_handshake_run`, and completion behavior of
`state_machine_end_handshake_run`; on handshake success the introspection is
persisted only when the cache already held an entry (an outdated entry is
overwritten, a matching one kept); when the cache holds no entry the check
reports not-found and nothing is stored. -/
theorem start_end_handshake_behavior :
    (∀ d : astarte_device, d.mqtt_session_present_flag ≠ 0 →
        d.cached_introspection = some d.introspection →
        state_machine_start_handshake_run d
          = ({ d with connection_state := DEVICE_CONNECTED }, no_effects))
    ∧ (∀ d : astarte_device,
        d.mqtt_session_present_flag = 0 ∨ d.cached_introspection ≠ some d.introspection →
        state_machine_start_handshake_run d
          = ({ d with
                subscription_failure := false
                connection_state := DEVICE_END_HANDSHAKE },
             { subscribed := true, published_introspection := some d.introspection,
               published_emptycache := true, fired_connection_cbk := false }))
    ∧ (∀ (d : astarte_device) (p : Bool), d.subscription_failure = true →
        state_machine_end_handshake_run d p
          = ({ d with connection_state := DEVICE_HANDSHAKE_ERROR }, no_effects))
    ∧ (∀ d : astarte_device, d.subscription_failure = false →
        (state_machine_end_handshake_run d false).1.connection_state = DEVICE_CONNECTED
        ∧ (state_machine_end_handshake_run d false).2.fired_connection_cbk = d.connection_cbk
        ∧ (∀ s, d.cached_introspection = some s →
            (state_machine_end_handshake_run d false).1.cached_introspection
              = some d.introspection)
        ∧ (d.cached_introspection = none →
            (state_machine_end_handshake_run d false).1.cached_introspection = none))
    ∧ (∀ d : astarte_device, d.subscription_failure = false →
        state_machine_end_handshake_run d true = (d, no_effects)) := by
  refine ⟨?_, ?_, ?_, ?_, ?_⟩
  · intro d hflag hcache
    unfold state_machine_start_handshake_run
    rw [if_pos ⟨hflag, by simp [astarte_device_caching_introspection_check, hcache]⟩]
  · intro d h
    unfold state_machine_start_handshake_run
    rw [if_neg]
    rintro ⟨hflag, hcheck⟩
    simp only [astarte_device_caching_introspection_check] at hcheck
    rcases h with h | h
    · exact hflag h
    · rcases hc : d.cached_introspection with _ | s
      · rw [hc] at hcheck
        simp at hcheck
      · rw [hc] at hcheck
        by_cases hs : s = d.introspection
        · exact h (by rw [hc, hs])
        · simp [hs] at hcheck
  · intro d p h
    unfold state_machine_end_handshake_run
    rw [if_pos h]
  · intro d h
    unfold state_machine_end_handshake_run
    rw [if_neg (by simp [h]), if_pos (by simp)]
    rcases hc : d.cached_introspection with _ | s
    · simp [astarte_device_caching_introspection_check, hc]
    · by_cases hs : s = d.introspection
      · simp [astarte_device_caching_introspection_check, hc, hs]
      · simp [astarte_device_caching_introspection_check, hc, hs]
  · intro d h
    unfold state_machine_end_handshake_run
    rw [if_neg (by simp [h]), if_neg (by simp)]

/-- Witness for C1 at concrete devices exercising the fast path and the
completion path. -/
theorem start_end_handshake_behavior_witness :
    state_machine_start_handshake_run
        { connection_state := DEVICE_START_HANDSHAKE, mqtt_session_present_flag := 1,
          subscription_failure := false, introspection := ['A'],
          cached_introspection := some ['A'], connection_cbk := true }
      = ({ connection_state := DEVICE_CONNECTED, mqtt_session_present_flag := 1,
            subscription_failure := false, introspection := ['A'],
            cached_introspection := some ['A'], connection_cbk := true }, no_effects)
    ∧ (state_machine_end_handshake_run
        { connection_state := DEVICE_END_HANDSHAKE, mqtt_session_present_flag := 0,
          subscription_failure := false, introspection := ['A'],
          cached_introspection := some ['B'], connection_cbk := true }
        false).1.cached_introspection = some ['A'] := by
  constructor
  · exact start_end_handshake_behavior.1 _ (by decide) rfl
  · exact (start_end_handshake_behavior.2.2.2.1 _ rfl).2.2.1 ['B'] rfl

/-- Claim C1 counterexample: a device completing the handshake with an empty
introspection cache reaches `Connected` but the new introspection is *not*
persisted (the caching check reports not-found and the code stores only on the
outdated result), contradicting the claim's "on handshake success the new
introspection is persisted". -/
theorem introspection_not_persisted_counterexample :
    (state_machine_end_handshake_run
        { connection_state := DEVICE_END_HANDSHAKE, mqtt_session_present_flag := 0,
          subscription_failure := false, introspection := ['A'],
          cached_introspection := none, connection_cbk := true }
        false).1.connection_state = DEVICE_CONNECTED
    ∧ (state_machine_end_handshake_run
        { connection_state := DEVICE_END_HANDSHAKE, mqtt_session_present_flag := 0,
          subscription_failure := false, introspection := ['A'],
          cached_introspection := none, connection_cbk := true }
        false).1.cached_introspection ≠ some ['A'] := by
  constructor
  · rfl
  · intro h
    exact absurd h (by decide)

end DeviceConnection

namespace Utilities

open Data

/-- Embeds `cmp_binaryblob_array`: equal counts, then for each index equal
sizes and `memcmp` over `sizes[i]` bytes (prefix equality of the blobs). -/
def cmp_binaryblob_array (lb : List (List Nat)) (ls : List Nat)
    (rb : List (List Nat)) (rs : List Nat) : Bool :=
  if lb.length ≠ rb.length then false
  else (List.range lb.length).all fun i =>
    ls.getD i 0 == rs.getD i 0
      && (lb.getD i []).take (ls.getD i 0) == (rb.getD i []).take (ls.getD i 0)

/-- Embeds `astarte_data_equal` of `utilities.c`: tags must match, scalars
compare by value (`strcmp` for strings, length plus `memcmp` for blobs), array
variants by equal length and elementwise equality (the `CMP_ARRAY` macro's
`memcmp`), string arrays by per-element `strcmp`. -/
def astarte_data_equal (left right : astarte_data_t) : Bool :=
  match left, right with
  | .boolean a, .boolean b => a == b
  | .datetime a, .datetime b => a == b
  | .dbl a, .dbl b => a == b
  | .integer a, .integer b => a == b
  | .longinteger a, .longinteger b => a == b
  | .string a, .string b => a == b
  | .binaryblob a, .binaryblob b => a == b
  | .boolean_array a, .boolean_array b => a == b
  | .datetime_array a, .datetime_array b => a == b
  | .double_array a, .double_array b => a == b
  | .integer_array a, .integer_array b => a == b
  | .longinteger_array a, .longinteger_array b => a == b
  | .string_array a, .string_array b => a == b
  | .binaryblob_array ab as, .binaryblob_array bb bs => cmp_binaryblob_array ab as bb bs
  | _, _ => false

/-- Object entry `astarte_object_entry_t` (`object.h`): a path segment and a value. -/
structure astarte_object_entry_t where
  path : List Char
  data : astarte_data_t
  deriving DecidableEq, Repr

instance : Inhabited astarte_object_entry_t :=
  ⟨{ path := [], data := .boolean false }⟩

/-- Interface-schema bound on object entries (`OBJECT_MAX_ENTRIES`). -/
def OBJECT_MAX_ENTRIES : Nat := 1024

/-- Embeds `get_object_entry_data`: index of the first entry whose path equals
`key` (the C function returns a pointer to its data; the caller recovers the
index by pointer arithmetic). -/
def get_object_entry_data : List astarte_object_entry_t → List Char → Option Nat
  | [], _ => none
  | e :: es, key =>
    if e.path = key then some 0
    else (get_object_entry_data es key).map (· + 1)

/-- Embeds the comparison loop of `astarte_object_equal`: for each left entry,
find the first right entry with the same path, fail if absent or if that right
entry was already matched (the `sys_bitarray_test_and_set_bit` check), fail if
the values differ, otherwise mark it used and continue. -/
def object_loop (right : List astarte_object_entry_t) :
    List astarte_object_entry_t → List Nat → Bool
  | [], _ => true
  | l :: ls, used =>
    match get_object_entry_data right l.path with
    | none => false
    | some j =>
      if j ∈ used then false
      else if astarte_data_equal l.data (right.getD j default).data then
        object_loop right ls (j :: used)
      else false

/-- Embeds `astarte_object_equal`: length check, the `OBJECT_MAX_ENTRIES`
bound (larger objects fail, including after the successful branch of the
bit-array allocation switch), the trivial empty case, then the loop. -/
def astarte_object_equal (left right : List astarte_object_entry_t) : Bool :=
  if left.length ≠ right.length then false
  else if left.length > OBJECT_MAX_ENTRIES then false
  else if left.length = 0 then true
  else object_loop right left []

/-- One-to-one matching as the spec states it: a permutation of the right
object that pairs each left entry with a right entry of equal path segment and
(code-)equal value. -/
def object_matching (left right : List astarte_object_entry_t) : Prop :=
  ∃ rp, right.Perm rp ∧
    List.Forall₂ (fun l r => l.path = r.path ∧ astarte_data_equal l.data r.data = true)
      left rp

end Utilities

namespace Utilities

theorem get_object_entry_data_some {es : List astarte_object_entry_t} {key : List Char}
    {j : Nat} (h : get_object_entry_data es key = some j) :
    j < es.length ∧ (es.getD j default).path = key := by
  induction es generalizing j with
  | nil => simp [get_object_entry_data] at h
  | cons e es ih =>
    unfold get_object_entry_data at h
    split_ifs at h with hp
    · obtain rfl : 0 = j := Option.some.inj h
      exact ⟨by simp, hp⟩
    · obtain ⟨j', hj', rfl⟩ := Option.map_eq_some'.mp h
      obtain ⟨hlt, hpath⟩ := ih hj'
      exact ⟨by simpa using Nat.succ_lt_succ hlt, by simpa using hpath⟩

theorem get_object_entry_data_complete {es : List astarte_object_entry_t} {key : List Char}
    (h : ∃ j, j < es.length ∧ (es.getD j default).path = key) :
    ∃ j₀, get_object_entry_data es key = some j₀ := by
  induction es with
  | nil =>
    obtain ⟨j, hj, -⟩ := h
    simp at hj
  | cons e es ih =>
    unfold get_object_entry_data
    split_ifs with hp
    · exact ⟨0, rfl⟩
    · obtain ⟨j, hj, hpath⟩ := h
      rcases j with _ | j'
      · exact absurd hpath hp
      · obtain ⟨j₀, hj₀⟩ := ih ⟨j', by simpa using hj, by simpa using hpath⟩
        exact ⟨j₀ + 1, by rw [hj₀]; rfl⟩

theorem paths_nodup_getD_inj {r : List astarte_object_entry_t}
    (h : (r.map astarte_object_entry_t.path).Nodup) {i j : Nat}
    (hi : i < r.length) (hj : j < r.length)
    (heq : (r.getD i default).path = (r.getD j default).path) : i = j := by
  rw [List.getD_eq_getElem r default hi, List.getD_eq_getElem r default hj] at heq
  have hi' : i < (r.map astarte_object_entry_t.path).length := by simpa using hi
  have hj' : j < (r.map astarte_object_entry_t.path).length := by simpa using hj
  have : (r.map astarte_object_entry_t.path)[i] = (r.map astarte_object_entry_t.path)[j] := by
    simpa [List.getElem_map] using heq
  exact (h.getElem_inj_iff).mp this


theorem object_loop_gives_matching (right : List astarte_object_entry_t) :
    ∀ (ls : List astarte_object_entry_t) (used : List Nat),
      object_loop right ls used = true →
      ∃ js : List Nat, js.length = ls.length ∧ js.Nodup ∧
        (∀ j ∈ js, j ∉ used ∧ j < right.length) ∧
        List.Forall₂ (fun l j => (right.getD j default).path = l.path ∧
          astarte_data_equal l.data (right.getD j default).data = true) ls js := by
  intro ls
  induction ls with
  | nil =>
    intro used _
    exact ⟨[], rfl, List.nodup_nil, by simp, List.Forall₂.nil⟩
  | cons l ls ih =>
    intro used h
    unfold object_loop at h
    rcases hf : get_object_entry_data right l.path with _ | j
    · rw [hf] at h
      exact absurd h (by simp)
    · rw [hf] at h
      replace h : (if j ∈ used then false
          else if astarte_data_equal l.data (right.getD j default).data then
            object_loop right ls (j :: used)
          else false) = true := h
      split_ifs at h with hmem hdata
      obtain ⟨js, hlen, hnodup, hbounds, hfa⟩ := ih (j :: used) h
      obtain ⟨hjlt, hjpath⟩ := get_object_entry_data_some hf
      refine ⟨j :: js, by simp [hlen], ?_, ?_, ?_⟩
      · refine List.nodup_cons.mpr ⟨?_, hnodup⟩
        intro hj
        exact (hbounds j hj).1 (List.mem_cons_self j used)
      · intro x hx
        rcases List.mem_cons.mp hx with rfl | hx'
        · exact ⟨hmem, hjlt⟩
        · obtain ⟨hnu, hlt⟩ := hbounds x hx'
          exact ⟨fun hxu => hnu (List.mem_cons_of_mem j hxu), hlt⟩
      · exact List.Forall₂.cons ⟨hjpath, hdata⟩ hfa


theorem object_loop_complete (right : List astarte_object_entry_t)
    (hr : (right.map astarte_object_entry_t.path).Nodup) :
    ∀ (ls : List astarte_object_entry_t) (used : List Nat),
      (ls.map astarte_object_entry_t.path).Nodup →
      (∀ l ∈ ls, ∃ j, j < right.length ∧ (right.getD j default).path = l.path ∧
          astarte_data_equal l.data (right.getD j default).data = true ∧ j ∉ used) →
      object_loop right ls used = true := by
  intro ls
  induction ls with
  | nil => intro used _ _; rfl
  | cons l ls ih =>
    intro used hnodup hwit
    obtain ⟨j, hjlt, hjpath, hjdata, hjused⟩ := hwit l (List.mem_cons_self l ls)
    obtain ⟨j₀, hj₀⟩ := get_object_entry_data_complete ⟨j, hjlt, hjpath⟩
    obtain ⟨hj₀lt, hj₀path⟩ := get_object_entry_data_some hj₀
    have hj₀j : j₀ = j := paths_nodup_getD_inj hr hj₀lt hjlt (by rw [hj₀path, hjpath])
    subst hj₀j
    show (match get_object_entry_data right l.path with
      | none => false
      | some j => if j ∈ used then false
          else if astarte_data_equal l.data (right.getD j default).data then
            object_loop right ls (j :: used)
          else false) = true
    rw [hj₀]
    show (if j₀ ∈ used then false
        else if astarte_data_equal l.data (right.getD j₀ default).data then
          object_loop right ls (j₀ :: used)
        else false) = true
    rw [if_neg hjused, if_pos hjdata]
    apply ih (j₀ :: used) (List.nodup_cons.mp hnodup).2
    intro l' hl'
    obtain ⟨j', hj'lt, hj'path, hj'data, hj'used⟩ := hwit l' (List.mem_cons_of_mem l hl')
    refine ⟨j', hj'lt, hj'path, hj'data, ?_⟩
    intro hmem
    rcases List.mem_cons.mp hmem with rfl | hmem'
    · -- j' = j₀ would force equal paths, contradicting nodup of the left paths
      have : l.path = l'.path := by rw [← hj₀path, hj'path]
      have hnotin : l.path ∉ ls.map astarte_object_entry_t.path :=
        (List.nodup_cons.mp (by simpa using hnodup)).1
      exact hnotin (this ▸ List.mem_map_of_mem astarte_object_entry_t.path hl')
    · exact hj'used hmem'


theorem forall₂_paths_eq {left rp : List astarte_object_entry_t}
    (hfa : List.Forall₂ (fun l r => l.path = r.path ∧
      astarte_data_equal l.data r.data = true) left rp) :
    left.map astarte_object_entry_t.path = rp.map astarte_object_entry_t.path := by
  induction hfa with
  | nil => rfl
  | cons h _ ih => simp [h.1, ih]

/-- Claim C6 (amended): if `astarte_object_equal` holds then the objects have
the same number of entries and a one-to-one matching pairing equal path
segments with code-equal values exists (each right entry matched at most once);
conversely, when the left object has no duplicated segments and at most 1024
entries, the existence of such a matching implies equality. (With duplicated
segments on both sides the converse fails, see the counterexample: the lookup
always returns the first right entry with the segment, so a second left entry
with the same segment hits the already-used right entry.) -/
theorem astarte_object_equal_iff_matching :
    (∀ left right : List astarte_object_entry_t,
        astarte_object_equal left right = true →
        left.length = right.length ∧ object_matching left right)
    ∧ (∀ left right : List astarte_object_entry_t,
        (left.map astarte_object_entry_t.path).Nodup →
        left.length = right.length →
        left.length ≤ OBJECT_MAX_ENTRIES →
        object_matching left right →
        astarte_object_equal left right = true) := by
  constructor
  · intro left right h
    unfold astarte_object_equal at h
    split_ifs at h with h1 h2 h3
    · -- empty objects
      have hlen : left.length = right.length := not_not.mp h1
      have hl : left = [] := List.length_eq_zero.mp h3
      have hr : right = [] := List.length_eq_zero.mp (by omega)
      subst hl hr
      exact ⟨rfl, [], List.Perm.refl [], List.Forall₂.nil⟩
    · have hlen : left.length = right.length := not_not.mp h1
      obtain ⟨js, hjslen, hjsnodup, hbounds, hfa⟩ :=
        object_loop_gives_matching right left [] h
      have hn : js.length = right.length := by omega
      have hperm_range : js.Perm (List.range right.length) := by
        refine List.Subperm.perm_of_length_le ?_ (by simp [hn])
        exact hjsnodup.subperm (fun x hx => List.mem_range.mpr (hbounds x hx).2)
      have hright_eq : right
          = (List.range right.length).map (fun j => right.getD j default) := by
        apply List.ext_getElem (by simp)
        intro n h₁ h₂
        simp only [List.getElem_map, List.getElem_range]
        rw [List.getD_eq_getElem right default h₁]
      refine ⟨hlen, js.map (fun j => right.getD j default), ?_, ?_⟩
      · conv_lhs => rw [hright_eq]
        exact (hperm_range.map (fun j => right.getD j default)).symm
      · refine List.forall₂_map_right_iff.mpr ?_
        refine hfa.imp ?_
        intro l j hp
        exact ⟨hp.1.symm, hp.2⟩
  · intro left right hnodupl hlen hmax hmatch
    obtain ⟨rp, hperm, hfa⟩ := hmatch
    have hrnodup : (right.map astarte_object_entry_t.path).Nodup := by
      have h1 : (rp.map astarte_object_entry_t.path).Nodup :=
        forall₂_paths_eq hfa ▸ hnodupl
      exact ((hperm.map astarte_object_entry_t.path).nodup_iff).mpr h1
    unfold astarte_object_equal
    rw [if_neg (by omega)]
    rw [if_neg (by omega)]
    by_cases h0 : left.length = 0
    · rw [if_pos h0]
    · rw [if_neg h0]
      apply object_loop_complete right hrnodup left [] hnodupl
      intro l hl
      obtain ⟨i, hi, hil⟩ := List.mem_iff_getElem.mp hl
      obtain ⟨hlen2, hget⟩ := List.forall₂_iff_get.mp hfa
      have hi2 : i < rp.length := by omega
      have hp := hget i hi hi2
      have hrmem : rp.get ⟨i, hi2⟩ ∈ right := hperm.mem_iff.mpr (rp.get_mem _ _)
      obtain ⟨j, hj, hjr⟩ := List.mem_iff_getElem.mp hrmem
      refine ⟨j, hj, ?_, ?_, by simp⟩
      · rw [List.getD_eq_getElem right default hj, hjr, ← hil]
        exact hp.1.symm
      · rw [List.getD_eq_getElem right default hj, hjr, ← hil]
        exact hp.2


/-- Claim C6 counterexample: two identical two-entry objects whose entries
share the path segment `a` admit a perfect one-to-one matching (the identity),
yet `astarte_object_equal` returns `false`: the first-match lookup sends both
left entries to right entry 0 and the bit-array check rejects the reuse. -/
theorem object_equal_duplicate_segments_counterexample :
    astarte_object_equal
        [⟨['a'], .integer 0⟩, ⟨['a'], .integer 0⟩]
        [⟨['a'], .integer 0⟩, ⟨['a'], .integer 0⟩] = false
    ∧ ([⟨['a'], .integer 0⟩, ⟨['a'], .integer 0⟩] : List astarte_object_entry_t).length
        = ([⟨['a'], .integer 0⟩, ⟨['a'], .integer 0⟩] : List astarte_object_entry_t).length
    ∧ object_matching [⟨['a'], .integer 0⟩, ⟨['a'], .integer 0⟩]
        [⟨['a'], .integer 0⟩, ⟨['a'], .integer 0⟩] := by
  refine ⟨by decide, rfl, ⟨[⟨['a'], .integer 0⟩, ⟨['a'], .integer 0⟩], List.Perm.refl _, ?_⟩⟩
  exact List.Forall₂.cons ⟨rfl, by decide⟩
    (List.Forall₂.cons ⟨rfl, by decide⟩ List.Forall₂.nil)

/-- Witness for C6 at concrete singleton objects, discharging both directions'
hypotheses. -/
theorem astarte_object_equal_iff_matching_witness :
    (([⟨['a'], Data.astarte_data_t.integer 1⟩] : List astarte_object_entry_t).length
        = ([⟨['a'], Data.astarte_data_t.integer 1⟩] : List astarte_object_entry_t).length
      ∧ object_matching [⟨['a'], .integer 1⟩] [⟨['a'], .integer 1⟩])
    ∧ astarte_object_equal [⟨['a'], .integer 1⟩] [⟨['a'], .integer 1⟩] = true :=
  ⟨astarte_object_equal_iff_matching.1 _ _ (by decide),
   astarte_object_equal_iff_matching.2 _ _ (by decide) rfl (by decide)
     ⟨[⟨['a'], .integer 1⟩], List.Perm.refl _,
       List.Forall₂.cons ⟨rfl, by decide⟩ List.Forall₂.nil⟩⟩

end Utilities

namespace Device

/-- Size of the application message buffer for incoming messages (device.c). -/
def MAX_MQTT_MSG_SIZE : Nat := 4096

/-- Upper bound on MQTT topic length (device.c). -/
def MAX_MQTT_TOPIC_SIZE : Nat := 512

/-- Modelled from the spec: `ASTARTE_INTERFACE_NAME_MAX_SIZE` of `interface.h`
(not under `src/`); interface names are at most 128 characters, so the buffer
holds 129 bytes. -/
def ASTARTE_INTERFACE_NAME_MAX_SIZE : Nat := 129

/-- The `errno.h` value `ENOMEM`. -/
def ENOMEM : Int := 12

/-- The fields of `struct astarte_device` (device.c) used by the inbound path:
the base topic and whether the data and unset user callbacks are set. -/
structure astarte_device where
  base_topic : List Char
  data_cbk : Bool
  unset_cbk : Bool
  deriving DecidableEq, Repr

/-- Observable outcome of `on_incoming` for one inbound publish: the message is
dropped (only logged), routed to the control handler, fires the unset callback,
or fires the data callback with the interface name, the path and the located
`"v"` element (its type byte and body bytes). -/
inductive incoming_outcome where
  | dropped
  | control_message
  | unset_event (interface_name path : List Char)
  | data_event (interface_name path : List Char) (v_type : Nat) (v_body : List Nat)
  deriving DecidableEq, Repr

/-- Little-endian 32-bit read at offset `i` of a byte buffer. -/
def read_u32_le (data : List Nat) (i : Nat) : Nat :=
  data.getD i 0 % 256 + data.getD (i + 1) 0 % 256 * 256
    + data.getD (i + 2) 0 % 256 * 65536 + data.getD (i + 3) 0 % 256 * 16777216

/-- Modelled from the spec: `astarte_bson_deserializer_check_validity` of the
BSON deserializer (not under `src/`): a document is at least the 5 bytes of an
empty document and its declared little-endian size prefix matches the length. -/
def astarte_bson_deserializer_check_validity (data : List Nat) (data_len : Nat) : Bool :=
  decide (5 ≤ data_len) && (read_u32_le data 0 == data_len)

/-- Modelled from the spec: body size of a BSON element under a type byte
(`element = type_byte | cstring name | body`; `rest` are the bytes after the
name's terminator). `none` for an unsupported type byte. -/
def bson_body_size (t : Nat) (rest : List Nat) : Option Nat :=
  if t = 0x01 then some 8
  else if t = 0x02 then some (4 + read_u32_le rest 0)
  else if t = 0x03 ∨ t = 0x04 then some (read_u32_le rest 0)
  else if t = 0x05 then some (4 + 1 + read_u32_le rest 0)
  else if t = 0x08 then some 1
  else if t = 0x09 then some 8
  else if t = 0x10 then some 4
  else if t = 0x12 then some 8
  else none

/-- Modelled from the spec: the element walk behind
`astarte_bson_deserializer_element_lookup`: scan the element list for the first
element named `key`, returning its type byte and body bytes. `fuel` bounds the
walk by the buffer length. -/
def element_walk : Nat → List Nat → List Nat → Option (Nat × List Nat)
  | 0, _, _ => none
  | _ + 1, [], _ => none
  | fuel + 1, t :: rest, key =>
    if t = 0 then none
    else
      let name := rest.takeWhile (· ≠ 0)
      let after_name := rest.drop (name.length + 1)
      match bson_body_size t after_name with
      | none => none
      | some sz =>
        if name = key then some (t, after_name.take sz)
        else element_walk fuel (after_name.drop sz) key

/-- Modelled from the spec: `astarte_bson_deserializer_element_lookup` for a
key, walking the elements after the 4-byte size prefix. -/
def astarte_bson_deserializer_element_lookup (data : List Nat) (key : List Nat) :
    Option (Nat × List Nat) :=
  element_walk data.length (data.drop 4) key

/-- Embeds `on_incoming` of device.c. `topic` is the NUL-terminated topic
string, `topic_len` its `strlen`, `data` the payload pointer (`none` for NULL)
and `data_len` the payload length. A NULL payload is read as an empty buffer by
the BSON validity check (the caller never passes NULL with a nonzero length). -/
def on_incoming (device : astarte_device) (topic : List Char) (topic_len : Nat)
    (data : Option (List Nat)) (data_len : Nat) : incoming_outcome :=
  if ¬ device.data_cbk then .dropped
  else if ¬ device.base_topic.isPrefixOf topic then .dropped
  else
    let controlRoot := device.base_topic ++ "/control".toList
    if controlRoot.length ≥ MAX_MQTT_TOPIC_SIZE then .dropped
    else if List.IsInfix controlRoot topic then .control_message
    else if topic_len < device.base_topic.length + 1
        ∨ topic.getD device.base_topic.length ' ' ≠ '/' then .dropped
    else
      let interface_name_begin := topic.drop (device.base_topic.length + 1)
      match interface_name_begin.findIdx? (· = '/') with
      | none => .dropped
      | some interface_name_len =>
        if interface_name_len ≥ ASTARTE_INTERFACE_NAME_MAX_SIZE then .dropped
        else
          let interface_name := interface_name_begin.take interface_name_len
          let path_len := topic_len - device.base_topic.length - 1 - interface_name_len
          if path_len ≥ MAX_MQTT_TOPIC_SIZE then .dropped
          else
            let path := (interface_name_begin.drop interface_name_len).take path_len
            if data.isNone ∧ data_len = 0 then
              if device.unset_cbk then .unset_event interface_name path
              else .dropped
            else
              let bytes := data.getD []
              if ¬ astarte_bson_deserializer_check_validity bytes data_len then .dropped
              else
                match astarte_bson_deserializer_element_lookup bytes [118] with
                | none => .dropped
                | some (t, body) => .data_event interface_name path t body

/-- One transport drain loop (`while (received < message_size)`) of
`handle_published_message`: `reads` are the byte counts returned by the
successive successful `mqtt_read_publish_payload_blocking` calls (the
transport-error path, a negative return, exits the function before any
acknowledgement and is outside this embedding); `none` when the reads are
exhausted before the payload is complete. -/
def drain (size : Nat) : List Nat → Nat → Option Nat
  | [], received => if received < size then none else some received
  | r :: rs, received =>
    if received < size then drain size rs (received + r) else some received

/-- Observable outcome of `handle_published_message`: which acknowledgements
were sent, whether (and with which outcome) the message reached `on_incoming`,
and the return value. -/
structure published_outcome where
  puback_sent : Bool
  pubrec_sent : Bool
  forwarded : Option incoming_outcome
  ret : Int
  deriving DecidableEq, Repr

/-- Embeds `handle_published_message`: payloads larger than the 4096-byte
buffer are drained into the scratch buffer and discarded, QoS 1/2 publishes are
acknowledged either way, only non-discarded messages reach `on_incoming` (with
the non-NULL buffer pointer and the payload length), and the return value is
`-ENOMEM` for discarded messages and the number of received bytes otherwise. -/
def handle_published_message (device : astarte_device) (topic : List Char)
    (qos : Nat) (payload : List Nat) (reads : List Nat) : Option published_outcome :=
  let message_size := payload.length
  let discarded := decide (message_size > MAX_MQTT_MSG_SIZE)
  match drain message_size reads 0 with
  | none => none
  | some received =>
    some { puback_sent := qos == 1
           pubrec_sent := qos == 2
           forwarded :=
             if ¬ discarded = true then
               some (on_incoming device topic topic.length (some payload) message_size)
             else none
           ret := if discarded = true then -ENOMEM else (received : Int) }

end Device

namespace Device

/-- Claim C2: the code drops a zero-length inbound publish instead of firing
the unset callback. `on_incoming` enters its unset branch only when the payload
pointer is NULL *and* the length is zero, but `handle_published_message` always
passes the (non-NULL) scratch buffer, so a zero-byte publish on a data topic
falls through to the BSON validity check and is dropped. The three conjuncts
evaluate the code at the failing input: with the buffer pointer the event is
dropped; the unset branch does fire when given a NULL pointer (showing the
branch is dead only through the caller); and the full inbound path for a
zero-byte QoS-2 publish acknowledges and drops the message. -/
theorem empty_payload_unset_never_fires :
    on_incoming { base_topic := "realm/device".toList, data_cbk := true, unset_cbk := true }
        "realm/device/org.example.Props/x".toList
        "realm/device/org.example.Props/x".toList.length (some []) 0
      = .dropped
    ∧ on_incoming { base_topic := "realm/device".toList, data_cbk := true, unset_cbk := true }
        "realm/device/org.example.Props/x".toList
        "realm/device/org.example.Props/x".toList.length none 0
      = .unset_event "org.example.Props".toList "/x".toList
    ∧ handle_published_message
        { base_topic := "realm/device".toList, data_cbk := true, unset_cbk := true }
        "realm/device/org.example.Props/x".toList 2 [] []
      = some { puback_sent := false, pubrec_sent := true,
               forwarded := some .dropped, ret := 0 } := by
  refine ⟨by decide, by decide, by decide⟩

/-- Claim C10: an inbound publish whose payload exceeds the 4096-byte message
buffer is drained and discarded — the QoS acknowledgements are still emitted,
`on_incoming` (and hence any user callback) is never reached, and the function
returns `-ENOMEM`; a payload of at most 4096 bytes is forwarded to
`on_incoming` and the function returns the number of bytes received. -/
theorem handle_published_message_size_limit :
    (∀ (device : astarte_device) (topic : List Char) (qos : Nat)
        (payload reads : List Nat) (n : Nat),
        payload.length > MAX_MQTT_MSG_SIZE →
        drain payload.length reads 0 = some n →
        handle_published_message device topic qos payload reads
          = some { puback_sent := qos == 1, pubrec_sent := qos == 2,
                   forwarded := none, ret := -ENOMEM })
    ∧ (∀ (device : astarte_device) (topic : List Char) (qos : Nat)
        (payload reads : List Nat) (n : Nat),
        payload.length ≤ MAX_MQTT_MSG_SIZE →
        drain payload.length reads 0 = some n →
        handle_published_message device topic qos payload reads
          = some { puback_sent := qos == 1, pubrec_sent := qos == 2,
                   forwarded := some (on_incoming device topic topic.length
                     (some payload) payload.length),
                   ret := (n : Int) }) := by
  constructor
  · intro device topic qos payload reads n hgt hdrain
    simp only [handle_published_message, hdrain]
    simp [hgt]
  · intro device topic qos payload reads n hle hdrain
    simp only [handle_published_message, hdrain]
    simp [Nat.not_lt.mpr hle]

/-- Witness for C10 at a 4097-byte payload (discarded) and a 3-byte payload
(forwarded). -/
theorem handle_published_message_size_limit_witness :
    handle_published_message { base_topic := [], data_cbk := true, unset_cbk := true }
        [] 1 (List.replicate 4097 0) [4097]
      = some { puback_sent := true, pubrec_sent := false, forwarded := none,
               ret := -ENOMEM }
    ∧ handle_published_message { base_topic := [], data_cbk := true, unset_cbk := true }
        [] 2 [1, 2, 3] [3]
      = some { puback_sent := false, pubrec_sent := true,
               forwarded := some (on_incoming
                 { base_topic := [], data_cbk := true, unset_cbk := true }
                 [] 0 (some [1, 2, 3]) 3),
               ret := 3 } := by
  constructor
  · exact handle_published_message_size_limit.1 _ _ 1 _ _ 4097
      (by rw [List.length_replicate]; decide) (by rw [List.length_replicate]; decide)
  · exact handle_published_message_size_limit.2 _ _ 2 _ _ 3 (by decide) (by decide)

end Device
